import Mathlib

/-!
Shallow embedding of the appointment reservation engine of this repository
(`app/services/calendar_service.py` and the webhook deduplication cache in
`app/api/v1/endpoints/webhook.py`), together with theorems settling the
specification claims about it.

Modelling conventions:
* Timestamps: the Python code stores ISO-8601 strings and compares them with
  the string order; for timestamps rendered in one fixed format that order is
  the chronological order, so instants are modelled as `Nat` and compared
  with `<` / `≤`.
* The Supabase client raising an exception is modelled by explicit failure
  flags in the environment (`dbFails`, `gcalFails`, `gcalInsertFails`,
  `gcalDeleteFails`, `insertResult`), one per distinct call site that the
  service wraps in a `try`/`except`.
* `get_service_for_tenant` is modelled by the pair
  (`tenantHasCreds`, `tenantCalendarId`): when the tenant has no usable
  credentials the code returns `use_mock = True`.
* Python `ValueError` and a re-raised store exception are the only failures
  the service produces; they are the two constructors of `SvcError`.
-/

/-- Lifecycle severity of a log record (`logger.info` / `logger.warning` /
`logger.error`-or-`logger.exception`). -/
inductive LogLevel where
  | info
  | warning
  | error
deriving Repr, DecidableEq

structure LogEntry where
  level : LogLevel
  msg : String
deriving Repr, DecidableEq

/-- A row of the `appointments` table as `calendar_service.py` reads it. -/
structure Booking where
  id : Nat
  tenantId : Nat
  resourceId : Nat
  customerName : String
  customerPhone : String
  startTime : Nat
  endTime : Nat
  status : String
  expiresAt : Option Nat
  googleEventId : Option String
deriving Repr, DecidableEq

/-- An event returned by the Google Calendar `events().list` call. -/
structure GEvent where
  eventId : String
  summary : String
  description : String
  startTime : Nat
  endTime : Nat
deriving Repr, DecidableEq

/-- Failures surfaced by `CalendarService`: `valueError m` is
`raise ValueError(m)`, `dbError m` is a store exception re-raised unchanged
(`raise e` after logging). -/
inductive SvcError where
  | valueError (msg : String)
  | dbError (msg : String)
deriving Repr, DecidableEq

/-- The state visible to `CalendarService` for one tenant: the local store
(`appointments`, `resources`), the tenant's Google configuration, the
external calendars, failure switches for each external call, and the
observable side effects (created events, deleted events, logs). -/
structure Env where
  now : Nat
  nextId : Nat
  appointments : List Booking
  resources : List (Nat × Option String)
  calendars : List (String × List GEvent)
  tenantCalendarId : String
  tenantHasCreds : Bool
  dbFails : Bool
  gcalFails : Bool
  gcalInsertFails : Bool
  gcalDeleteFails : Bool
  insertResult : Except String Unit
  gcalNewEventId : String
  gcalCreates : List (String × String)
  gcalDeletes : List (String × String)
  logs : List LogEntry
deriving Repr

/-- Python substring membership `pat in hay` on the character list level. -/
def listIsSubstr (pat : List Char) : List Char → Bool
  | [] => pat.isEmpty
  | h :: t => pat.isPrefixOf (h :: t) || listIsSubstr pat t

/-- Python `pat in hay` for strings. -/
def strContains (hay pat : String) : Bool :=
  listIsSubstr pat.data hay.data

/-- Python `c in hay` for a single character (used for the `"@" in rid`
calendar-shaped test). -/
def strContainsChar (hay : String) (c : Char) : Bool :=
  hay.data.contains c

/-- The per-row blocking test of `check_availability` (lines 127-137): a
`confirmed` row blocks; a `pending` row blocks iff `expires_at` is set and
`expires_at > now`. -/
def rowBlocks (now : Nat) (b : Booking) : Bool :=
  if b.status == "confirmed" then true
  else if b.status == "pending" then
    match b.expiresAt with
    | some x => decide (now < x)
    | none => false
  else false

/-- The overlap query of `check_availability`:
`eq(tenant_id) . eq(resource_id) . lt(start_time, end) . gt(end_time, start)`. -/
def overlapRows (env : Env) (tid rid s e : Nat) : List Booking :=
  env.appointments.filter fun b =>
    b.tenantId == tid && b.resourceId == rid &&
      decide (b.startTime < e) && decide (s < b.endTime)

/-- Verdict of stage 1 (local store) of `check_availability`: some
overlapping row blocks. -/
def dbBlocks (env : Env) (tid rid s e : Nat) : Bool :=
  (overlapRows env tid rid s e).any (rowBlocks env.now)

/-- The `resources.select("external_id").eq("id", resource_id).single()`
lookup; any exception is swallowed by a bare `except`, leaving `None`. -/
def lookupResourceExt (env : Env) (rid : Nat) : Option String :=
  match env.resources.find? (fun r => r.1 == rid) with
  | some r => r.2
  | none => none

/-- Target-calendar resolution shared by `check_availability` and
`_sync_create_to_google`: a resource `external_id` containing `@` is used as
a dedicated calendar, otherwise the tenant calendar. -/
def targetCalendar (env : Env) (rid : Nat) : String :=
  match lookupResourceExt env rid with
  | some ext => if strContainsChar ext '@' then ext else env.tenantCalendarId
  | none => env.tenantCalendarId

/-- The `events().list(calendarId, timeMin, timeMax, singleEvents=True)`
call: the events of the calendar intersecting the half-open window. -/
def gcalListEvents (env : Env) (cal : String) (s e : Nat) : List GEvent :=
  match env.calendars.find? (fun c => c.1 == cal) with
  | some c => c.2.filter fun ev => decide (ev.startTime < e) && decide (s < ev.endTime)
  | none => []

/-- The per-event blocking test of `check_availability` (lines 175-195): on
a dedicated calendar any event blocks; on the shared tenant calendar an
event blocks when its description lacks the marker `"ResourceID:"`, or when
the description contains the substring `"ResourceID: <rid>"`. -/
def eventBlocks (env : Env) (rid : Nat) (target : String) (ev : GEvent) : Bool :=
  if target != env.tenantCalendarId then true
  else if !(strContains ev.description "ResourceID:") then true
  else if strContains ev.description ("ResourceID: " ++ toString rid) then true
  else false

/-- Verdict of stage 2 (Google Calendar) of `check_availability`: `true`
means the external source does not block.  `use_mock` (no credentials) and a
caught `HttpError` from `events().list` both fall through to `return True`. -/
def externalVerdict (env : Env) (rid s e : Nat) : Bool :=
  if !env.tenantHasCreds then true
  else
    let target := targetCalendar env rid
    if env.gcalFails then true
    else !((gcalListEvents env target s e).any (eventBlocks env rid target))

/-- `CalendarService.check_availability`.  Stage 1 consults the local store
(its exceptions are caught and logged, after which the code falls through to
stage 2); stage 2 consults the external calendar. -/
def check_availability (env : Env) (tid rid s e : Nat) : Bool :=
  if !env.dbFails && dbBlocks env tid rid s e then false
  else externalVerdict env rid s e

/-- Update every `appointments` row matching `id`, as
`supabase.table("appointments").update(...).eq("id", id)` does. -/
def updateRows (env : Env) (id : Nat) (f : Booking → Booking) : Env :=
  { env with appointments := env.appointments.map fun b => if b.id == id then f b else b }

/-- The `appointments.select("*").eq("id", id).single()` lookup. -/
def findBooking (env : Env) (id : Nat) : Option Booking :=
  env.appointments.find? fun b => b.id == id

def logAt (env : Env) (lvl : LogLevel) (m : String) : Env :=
  { env with logs := env.logs ++ [⟨lvl, m⟩] }

/-- `CalendarService.reserve_appointment` (phase 1, soft hold): checks
availability, raises `ValueError("Slot is not available.")` when blocked,
otherwise inserts a `pending` row with `expires_at = now + 5 minutes`; an
insert exception is logged and re-raised unchanged (`raise e`). -/
def reserve_appointment (env : Env) (tid rid : Nat) (cname cphone : String)
    (s e : Nat) : Except SvcError (Booking × Env) :=
  if !(check_availability env tid rid s e) then
    .error (.valueError "Slot is not available.")
  else
    match env.insertResult with
    | .error m => .error (.dbError m)
    | .ok _ =>
      let b : Booking :=
        { id := env.nextId, tenantId := tid, resourceId := rid,
          customerName := cname, customerPhone := cphone,
          startTime := s, endTime := e, status := "pending",
          expiresAt := some (env.now + 300), googleEventId := none }
      .ok (b, { env with appointments := env.appointments ++ [b],
                         nextId := env.nextId + 1 })

/-- The event description `_sync_create_to_google` writes:
`f"Phone: {phone}\nResourceID: {resource_id}"`. -/
def syncDescription (b : Booking) : String :=
  "Phone: " ++ b.customerPhone ++ "\nResourceID: " ++ toString b.resourceId

/-- `CalendarService._sync_create_to_google`: in mock mode returns the fixed
id `"mock_gcal_id"`; otherwise resolves the target calendar (dedicated when
the resource `external_id` contains `@`, else the tenant calendar) and
inserts the tagged event there.  An API failure is modelled by
`gcalInsertFails`. -/
def sync_create_to_google (env : Env) (b : Booking) :
    Except String (String × Env) :=
  if !env.tenantHasCreds then .ok ("mock_gcal_id", env)
  else
    let target := targetCalendar env b.resourceId
    if env.gcalInsertFails then .error "gcal insert failed"
    else
      .ok (env.gcalNewEventId,
           { env with gcalCreates := env.gcalCreates ++ [(target, syncDescription b)] })

def syncFailMsg : String := "Failed to sync confirmation to Google Calendar"

/-- `CalendarService.confirm_appointment` (phase 2): fetch; already
`confirmed` is returned unchanged; `cancelled` raises; a set `expires_at`
strictly in the past auto-cancels the row and raises
`ValueError("Reservation expired.")`; otherwise the Google sync is attempted
(its failure only logged at error severity via `logger.exception`) and the
row is updated to `confirmed` with whatever `google_event_id` the sync
produced (`None` on failure). -/
def confirm_appointment (env : Env) (id : Nat) : Except SvcError Booking × Env :=
  match findBooking env id with
  | none => (.error (.valueError "Reservation not found."), env)
  | some b =>
    if b.status == "confirmed" then (.ok b, env)
    else if b.status == "cancelled" then
      (.error (.valueError "Reservation was cancelled."), env)
    else
      let expired := match b.expiresAt with
        | some x => decide (x < env.now)
        | none => false
      if expired then
        (.error (.valueError "Reservation expired."),
         updateRows env id fun bb => { bb with status := "cancelled" })
      else
        let step := match sync_create_to_google env b with
          | .ok (eid, env1) => (some eid, env1)
          | .error _ => ((none : Option String), logAt env .error syncFailMsg)
        let env2 := updateRows step.2 id fun bb =>
          { bb with status := "confirmed", googleEventId := step.1 }
        (.ok { b with status := "confirmed", googleEventId := step.1 }, env2)

/-- `CalendarService.cancel_appointment`: returns `False` when the row is
absent; otherwise updates the row to `cancelled` and, when a
`google_event_id` is recorded and the tenant is not in mock mode, deletes
the event from the tenant's configured calendar (the `calendar_id` returned
by `get_service_for_tenant`); a delete failure is logged as a warning. -/
def cancel_appointment (env : Env) (id : Nat) : Bool × Env :=
  match findBooking env id with
  | none => (false, env)
  | some b =>
    let env1 := updateRows env id fun bb => { bb with status := "cancelled" }
    match b.googleEventId with
    | some gid =>
      if env1.tenantHasCreds then
        if env1.gcalDeleteFails then
          (true, logAt env1 .warning "Failed to delete GCal event")
        else
          (true, { env1 with gcalDeletes := env1.gcalDeletes ++ [(env1.tenantCalendarId, gid)] })
      else (true, env1)
    | none => (true, env1)

/-- The in-memory deduplication cache of `webhook.py`: the set
`PROCESSED_IDS` and the deque `PROCESSED_IDS_QUEUE` with `maxlen=1000`. -/
structure DedupState where
  processedIds : List Nat
  queue : List Nat
deriving Repr, DecidableEq

def dedupInit : DedupState := ⟨[], []⟩

/-- One pass of the webhook dedup block (lines 81-92): membership in
`PROCESSED_IDS` short-circuits; otherwise the id is added to the set and
appended to the bounded deque.  The `if len(PROCESSED_IDS) > 1000:` branch
of the source is literally `pass`, so nothing is ever removed from the set. -/
def dedupCheckAndAdd (st : DedupState) (id : Nat) : Bool × DedupState :=
  if st.processedIds.contains id then (true, st)
  else
    let q := st.queue ++ [id]
    let q := if 1000 < q.length then q.drop (q.length - 1000) else q
    (false, ⟨st.processedIds ++ [id], q⟩)

/-- Feeding a sequence of notification ids through the dedup gate. -/
def dedupRun (st : DedupState) (ids : List Nat) : DedupState :=
  ids.foldl (fun s i => (dedupCheckAndAdd s i).2) st

/-! ## Concrete environments used by witnesses and counterexamples -/

def baseEnv : Env :=
  { now := 50, nextId := 1, appointments := [], resources := [], calendars := [],
    tenantCalendarId := "primary", tenantHasCreds := false, dbFails := false,
    gcalFails := false, gcalInsertFails := false, gcalDeleteFails := false,
    insertResult := .ok (), gcalNewEventId := "evt1",
    gcalCreates := [], gcalDeletes := [], logs := [] }

def bkC1a : Booking :=
  { id := 1, tenantId := 1, resourceId := 2, customerName := "A",
    customerPhone := "p", startTime := 10, endTime := 20,
    status := "confirmed", expiresAt := none, googleEventId := none }

def envC1a : Env := { baseEnv with appointments := [bkC1a] }

def bkC1b : Booking := { bkC1a with status := "pending", expiresAt := some 40 }

def envC1b : Env := { baseEnv with appointments := [bkC1b] }

/-! ## Claims -/

/-- Claim C1: if the local store holds a Booking for the queried tenant and
resource whose interval overlaps the queried half-open interval
(`existing.start < end` and `existing.end > start`) and whose status is
`confirmed`, or `pending` with `expires_at > now`, then `check_availability`
returns `false`; and when every such overlapping row is an expired-pending
row (`expires_at ≤ now`) the local stage does not block, so the verdict is
exactly the external-calendar verdict. -/
theorem c1_local_blocking :
    (∀ (env : Env) (tid rid s e : Nat) (b : Booking),
       env.dbFails = false → b ∈ env.appointments →
       b.tenantId = tid → b.resourceId = rid →
       b.startTime < e → s < b.endTime →
       (b.status = "confirmed" ∨
        (b.status = "pending" ∧ ∃ x, b.expiresAt = some x ∧ env.now < x)) →
       check_availability env tid rid s e = false) ∧
    (∀ (env : Env) (tid rid s e : Nat),
       env.dbFails = false →
       (∀ b ∈ env.appointments, b.tenantId = tid → b.resourceId = rid →
          b.startTime < e → s < b.endTime →
          b.status = "pending" ∧ ∃ x, b.expiresAt = some x ∧ x ≤ env.now) →
       check_availability env tid rid s e = externalVerdict env rid s e) := by
  constructor
  · intro env tid rid s e b hdb hmem htid hrid hs he hblock
    have hrow : rowBlocks env.now b = true := by
      rcases hblock with hconf | ⟨hpend, x, hx, hlt⟩
      · simp [rowBlocks, hconf]
      · simp [rowBlocks, hpend, hx, hlt]
    have hfil : b ∈ overlapRows env tid rid s e := by
      refine List.mem_filter.mpr ⟨hmem, ?_⟩
      simp [htid, hrid, hs, he]
    have hblocks : dbBlocks env tid rid s e = true :=
      List.any_eq_true.mpr ⟨b, hfil, hrow⟩
    simp [check_availability, hdb, hblocks]
  · intro env tid rid s e hdb hall
    have hblocks : dbBlocks env tid rid s e = false := by
      rw [dbBlocks, List.any_eq_false]
      intro b hb
      have hb2 := List.mem_filter.mp hb
      have hcond := hb2.2
      simp only [Bool.and_eq_true, beq_iff_eq, decide_eq_true_eq] at hcond
      obtain ⟨⟨⟨htid, hrid⟩, hs⟩, he⟩ := hcond
      obtain ⟨hpend, x, hx, hle⟩ := hall b hb2.1 htid hrid hs he
      simp [rowBlocks, hpend, hx, Nat.not_lt.mpr hle]
    simp [check_availability, hdb, hblocks]

/-- Witness for C1: a concrete confirmed overlapping row blocks, and a
concrete expired-pending row leaves the verdict to the external stage. -/
theorem c1_witness :
    check_availability envC1a 1 2 15 25 = false ∧
    check_availability envC1b 1 2 15 25 = externalVerdict envC1b 2 15 25 := by
  constructor
  · exact c1_local_blocking.1 envC1a 1 2 15 25 bkC1a rfl (by decide) rfl rfl
      (by decide) (by decide) (Or.inl rfl)
  · refine c1_local_blocking.2 envC1b 1 2 15 25 rfl ?_
    intro b hb
    have hb1 : b = bkC1b := by
      simpa [envC1b, baseEnv] using hb
    subst hb1
    exact fun _ _ _ _ => ⟨rfl, 40, rfl, by decide⟩

def envC2 : Env :=
  { baseEnv with insertResult := .error "duplicate key value violates unique constraint" }

def envC2b : Env := { baseEnv with insertResult := .error "connection reset" }

/-- Counterexample for C2: when the pending insert hits a store-level
constraint violation, `reserve_appointment` re-raises the store exception
unchanged (`raise e`), producing the same generic `SvcError.dbError`
constructor as any unrelated store failure (here: a connection error) — not
a dedicated typed `Conflict` error, which does not exist in the code. -/
theorem c2_counterexample :
    reserve_appointment envC2 1 2 "A" "p" 10 20 =
      Except.error (SvcError.dbError "duplicate key value violates unique constraint") ∧
    reserve_appointment envC2b 1 2 "A" "p" 10 20 =
      Except.error (SvcError.dbError "connection reset") := by
  exact ⟨rfl, rfl⟩

/-- Claim C2 (amended): a store-level failure of the pending insert is not
silently swallowed — `reserve_appointment` surfaces it to the caller — but
it is surfaced by re-raising the untyped store exception as-is
(`SvcError.dbError`), with no typed `Conflict` error distinguishing a
uniqueness violation from any other store failure. -/
theorem c2_insert_error_reraised :
    ∀ (env : Env) (tid rid : Nat) (cn cp : String) (s e : Nat) (m : String),
      check_availability env tid rid s e = true →
      env.insertResult = Except.error m →
      reserve_appointment env tid rid cn cp s e = Except.error (SvcError.dbError m) := by
  intro env tid rid cn cp s e m hav hins
  simp [reserve_appointment, hav, hins]

/-- Witness for C2 (amended): the constraint-violation message surfaces. -/
theorem c2_witness :
    reserve_appointment envC2 1 2 "A" "p" 10 20 =
      Except.error (SvcError.dbError "duplicate key value violates unique constraint") :=
  c2_insert_error_reraised envC2 1 2 "A" "p" 10 20
    "duplicate key value violates unique constraint" rfl rfl

def bkC3 : Booking := { bkC1a with status := "pending", expiresAt := some 50 }

def envC3 : Env := { baseEnv with appointments := [bkC3] }

/-- Counterexample for C3: the code tests `expires_at < now` strictly, so at
the boundary `expires_at = now` (claim: `expiresAt <= now` must fail with
`Expired`) `confirm_appointment` instead succeeds and confirms the row. -/
theorem c3_counterexample :
    bkC3.status = "pending" ∧ bkC3.expiresAt = some envC3.now ∧
    (confirm_appointment envC3 1).1 =
      Except.ok { bkC3 with status := "confirmed", googleEventId := some "mock_gcal_id" } ∧
    (findBooking (confirm_appointment envC3 1).2 1).map Booking.status = some "confirmed" := by
  exact ⟨rfl, rfl, rfl, rfl⟩

/-- Claim C3 (amended): for a pending booking whose `expires_at` is strictly
earlier than now, `confirm_appointment` fails with
`ValueError("Reservation expired.")` and rewrites the row's status to
`cancelled`; and such a row never blocks the availability check's local
stage (`rowBlocks` demands `expires_at > now` for pending rows).  At the
exact boundary `expires_at = now` the code confirms instead. -/
theorem c3_expired_confirm :
    ∀ (env : Env) (id : Nat) (b : Booking) (x : Nat),
      findBooking env id = some b → b.status = "pending" →
      b.expiresAt = some x → x < env.now →
      (confirm_appointment env id).1 =
        Except.error (SvcError.valueError "Reservation expired.") ∧
      (confirm_appointment env id).2 =
        updateRows env id (fun bb => { bb with status := "cancelled" }) ∧
      rowBlocks env.now b = false := by
  intro env id b x hfind hpend hx hlt
  have hnot : ¬ env.now < x := Nat.lt_asymm hlt
  have h1 : (b.status == "confirmed") = false := by simp [hpend]
  have h2 : (b.status == "cancelled") = false := by simp [hpend]
  refine ⟨?_, ?_, ?_⟩
  · simp [confirm_appointment, hfind, h1, h2, hx, hlt]
  · simp [confirm_appointment, hfind, h1, h2, hx, hlt]
  · simp [rowBlocks, hpend, hx, hnot]

/-- Witness for C3 (amended): a concrete pending row with
`expires_at = 40 < now = 50` is auto-cancelled and reported expired. -/
theorem c3_witness :
    (confirm_appointment envC1b 1).1 =
      Except.error (SvcError.valueError "Reservation expired.") ∧
    (confirm_appointment envC1b 1).2 =
      updateRows envC1b 1 (fun bb => { bb with status := "cancelled" }) ∧
    rowBlocks envC1b.now bkC1b = false :=
  c3_expired_confirm envC1b 1 bkC1b 40 rfl rfl rfl (by decide)

def evC4 : GEvent :=
  { eventId := "g1", summary := "Appt: X",
    description := "Phone: 999\nResourceID: 12", startTime := 12, endTime := 18 }

def envC4 : Env :=
  { baseEnv with
      tenantHasCreds := true
      resources := [(1, none), (3, none)]
      calendars := [("primary", [evC4])] }

/-- Claim C4 at the failing input: on the shared tenant calendar an event
tagged `"ResourceID: 12"` blocks the availability of the *different*
resource 1, because the code tests the substring `"ResourceID: 1"` which
also occurs inside `"ResourceID: 12"`; resource 3 is correctly left free.
This contradicts the code's own comment ("If it has a DIFFERENT ResourceID,
it's for someone else -> Free") and the spec. -/
theorem c4_tag_substring_bug :
    strContains evC4.description ("ResourceID: " ++ toString (12 : Nat)) = true ∧
    strContains evC4.description "ResourceID:" = true ∧
    check_availability envC4 1 1 10 20 = false ∧
    check_availability envC4 1 3 10 20 = true := by
  exact ⟨rfl, rfl, rfl, rfl⟩

def envC5 : Env := { envC1a with dbFails := true }

/-- Counterexample for C5: when the local-store query raises, the exception
is logged and swallowed and the check proceeds to the external stage; here
the external stage reports free (mock mode), so the slot is reported free
even though the store holds an overlapping confirmed booking — the code is
fail-open, not fail-closed, on the local source. -/
theorem c5_counterexample :
    envC5.dbFails = true ∧
    bkC1a ∈ envC5.appointments ∧ bkC1a.status = "confirmed" ∧
    check_availability envC5 1 2 15 25 = true := by
  exact ⟨rfl, by decide, rfl, rfl⟩

/-- Claim C5 (amended): on an external-calendar query failure the check does
not hard-fail and returns the local-store verdict alone (fail-open on the
external source, as claimed); but on a local-store query failure the check
is also fail-open: it swallows the exception and returns the
external-calendar verdict alone, which can report the slot free. -/
theorem c5_fail_open :
    (∀ (env : Env) (tid rid s e : Nat),
       env.dbFails = false → env.tenantHasCreds = true → env.gcalFails = true →
       check_availability env tid rid s e = !(dbBlocks env tid rid s e)) ∧
    (∀ (env : Env) (tid rid s e : Nat),
       env.dbFails = true →
       check_availability env tid rid s e = externalVerdict env rid s e) := by
  constructor
  · intro env tid rid s e hdb hcreds hg
    have hev : externalVerdict env rid s e = true := by
      simp [externalVerdict, hcreds, hg]
    cases hb : dbBlocks env tid rid s e <;> simp [check_availability, hdb, hb, hev]
  · intro env tid rid s e hdb
    simp [check_availability, hdb]

def envC5w : Env := { envC1a with tenantHasCreds := true, gcalFails := true }

/-- Witness for C5 (amended) on concrete environments. -/
theorem c5_witness :
    check_availability envC5w 1 2 15 25 = !(dbBlocks envC5w 1 2 15 25) ∧
    check_availability envC5 1 2 15 25 = externalVerdict envC5 2 15 25 :=
  ⟨c5_fail_open.1 envC5w 1 2 15 25 rfl rfl rfl, c5_fail_open.2 envC5 1 2 15 25 rfl⟩

/-- Claim C6: a booking whose status is already `confirmed` is returned
unchanged by `confirm_appointment` and the environment — store rows, created
external events, logs — is entirely untouched: a second confirm is
idempotent and creates no second external event. -/
theorem c6_confirm_idempotent :
    ∀ (env : Env) (id : Nat) (b : Booking),
      findBooking env id = some b → b.status = "confirmed" →
      confirm_appointment env id = (Except.ok b, env) := by
  intro env id b hfind hconf
  simp [confirm_appointment, hfind, hconf]

/-- Witness for C6: confirming an already-confirmed concrete booking. -/
theorem c6_witness : confirm_appointment envC1a 1 = (Except.ok bkC1a, envC1a) :=
  c6_confirm_idempotent envC1a 1 bkC1a rfl rfl

/-- Claim C7: for an unexpired pending booking, a failure of the external
projection does not fail `confirm_appointment`: the call still succeeds, the
row is marked `confirmed` with `google_event_id` left unset, no external
event is created, and the failure is logged at error severity rather than
propagated or rolled back. -/
theorem c7_sync_failure_still_confirms :
    ∀ (env : Env) (id : Nat) (b : Booking) (x : Nat),
      findBooking env id = some b → b.status = "pending" →
      b.expiresAt = some x → env.now ≤ x →
      env.tenantHasCreds = true → env.gcalInsertFails = true →
      (confirm_appointment env id).1 =
        Except.ok { b with status := "confirmed", googleEventId := none } ∧
      (confirm_appointment env id).2 =
        updateRows (logAt env .error syncFailMsg) id
          (fun bb => { bb with status := "confirmed", googleEventId := none }) ∧
      (confirm_appointment env id).2.gcalCreates = env.gcalCreates ∧
      (confirm_appointment env id).2.logs = env.logs ++ [⟨.error, syncFailMsg⟩] := by
  intro env id b x hfind hpend hx hle hcreds hfail
  have hnot : ¬ x < env.now := Nat.not_lt.mpr hle
  have h1 : (b.status == "confirmed") = false := by simp [hpend]
  have h2 : (b.status == "cancelled") = false := by simp [hpend]
  have hsync : sync_create_to_google env b = Except.error "gcal insert failed" := by
    simp [sync_create_to_google, hcreds, hfail]
  refine ⟨?_, ?_, ?_, ?_⟩ <;>
    simp [confirm_appointment, hfind, h1, h2, hx, hnot, hsync, updateRows, logAt]

def bkC7 : Booking := { bkC1a with status := "pending", expiresAt := some 90 }

def envC7 : Env :=
  { baseEnv with
      appointments := [bkC7]
      tenantHasCreds := true
      gcalInsertFails := true }

/-- Witness for C7 on a concrete unexpired pending booking whose Google
sync fails. -/
theorem c7_witness :
    (confirm_appointment envC7 1).1 =
      Except.ok { bkC7 with status := "confirmed", googleEventId := none } ∧
    (confirm_appointment envC7 1).2 =
      updateRows (logAt envC7 .error syncFailMsg) 1
        (fun bb => { bb with status := "confirmed", googleEventId := none }) ∧
    (confirm_appointment envC7 1).2.gcalCreates = envC7.gcalCreates ∧
    (confirm_appointment envC7 1).2.logs = envC7.logs ++ [⟨.error, syncFailMsg⟩] :=
  c7_sync_failure_still_confirms envC7 1 bkC7 90 rfl rfl rfl (by decide) rfl rfl

/-- Counterexample for C9: for an id absent from the store,
`cancel_appointment` merely returns the boolean `False` with the
environment untouched — its return type (`bool` in the source) cannot carry
a typed `NotFound` failure at all, and no exception is raised. -/
theorem c9_counterexample :
    cancel_appointment baseEnv 5 = (false, baseEnv) := rfl

/-- Claim C9 (amended): for every booking id absent from the local store,
`cancel_appointment` reports failure by returning `False` — not by raising
a typed `NotFound` error — and performs no store write and no external
deletion (the environment is returned unchanged). -/
theorem c9_cancel_absent :
    ∀ (env : Env) (id : Nat),
      findBooking env id = none →
      cancel_appointment env id = (false, env) := by
  intro env id h
  simp [cancel_appointment, h]

/-- Witness for C9 (amended): cancelling an unknown id in a non-empty
store. -/
theorem c9_witness : cancel_appointment envC1a 99 = (false, envC1a) :=
  c9_cancel_absent envC1a 99 rfl

/-- Claim C10: the external delete issued by `cancel_appointment` always
targets the tenant's configured calendar id (the `calendar_id` returned by
`get_service_for_tenant`), while `_sync_create_to_google` creates the event
on the resource's dedicated calendar whenever the resource `external_id` is
calendar-shaped (contains `@`) — so for such resources the delete never
targets the calendar the event was created on. -/
theorem c10_cancel_delete_target :
    (∀ (env : Env) (id : Nat) (b : Booking) (gid : String),
       findBooking env id = some b → b.googleEventId = some gid →
       env.tenantHasCreds = true → env.gcalDeleteFails = false →
       (cancel_appointment env id).1 = true ∧
       (cancel_appointment env id).2.gcalDeletes =
         env.gcalDeletes ++ [(env.tenantCalendarId, gid)]) ∧
    (∀ (env : Env) (b : Booking) (ext : String),
       env.tenantHasCreds = true → env.gcalInsertFails = false →
       lookupResourceExt env b.resourceId = some ext →
       strContainsChar ext '@' = true →
       sync_create_to_google env b =
         Except.ok (env.gcalNewEventId,
           { env with gcalCreates := env.gcalCreates ++ [(ext, syncDescription b)] })) := by
  constructor
  · intro env id b gid hfind hgid hcreds hdel
    constructor <;> simp [cancel_appointment, hfind, hgid, hcreds, hdel, updateRows]
  · intro env b ext hcreds hfail hres hat
    simp [sync_create_to_google, hcreds, hfail, targetCalendar, hres, hat]

def bkC10 : Booking := { bkC1a with resourceId := 7, googleEventId := some "g42" }

def envC10 : Env :=
  { baseEnv with
      appointments := [bkC10]
      tenantHasCreds := true
      resources := [(7, some "room7@group.calendar.google.com")] }

/-- Witness for C10: for a resource with a dedicated calendar, the create
goes to the dedicated calendar while the cancel-side delete goes to the
tenant calendar `"primary"`. -/
theorem c10_witness :
    (cancel_appointment envC10 1).1 = true ∧
    (cancel_appointment envC10 1).2.gcalDeletes =
      envC10.gcalDeletes ++ [(envC10.tenantCalendarId, "g42")] ∧
    sync_create_to_google envC10 bkC10 =
      Except.ok (envC10.gcalNewEventId,
        { envC10 with gcalCreates := envC10.gcalCreates ++
            [("room7@group.calendar.google.com", syncDescription bkC10)] }) :=
  ⟨(c10_cancel_delete_target.1 envC10 1 bkC10 "g42" rfl rfl rfl rfl).1,
   (c10_cancel_delete_target.1 envC10 1 bkC10 "g42" rfl rfl rfl rfl).2,
   c10_cancel_delete_target.2 envC10 bkC10 "room7@group.calendar.google.com"
     rfl rfl rfl (by decide)⟩

/-- Ids added to `PROCESSED_IDS` are never removed by later calls: the
source's eviction branch (`if len(PROCESSED_IDS) > 1000:`) is literally
`pass`, so the set only grows. -/
theorem dedup_processed_mono (st : DedupState) (j i : Nat)
    (h : i ∈ st.processedIds) : i ∈ (dedupCheckAndAdd st j).2.processedIds := by
  by_cases hc : j ∈ st.processedIds <;> simp [dedupCheckAndAdd, hc, h]

/-- Set membership survives any whole run of the dedup gate. -/
theorem dedup_run_mono (ids : List Nat) (st : DedupState) (i : Nat)
    (h : i ∈ st.processedIds) : i ∈ (dedupRun st ids).processedIds := by
  induction ids generalizing st with
  | nil => exact h
  | cons j t ih => exact ih ((dedupCheckAndAdd st j).2) (dedup_processed_mono st j i h)

/-- Claim C8 at the failing input: a fresh id yields `seen = false` and is
inserted, an immediate repeat yields `seen = true`; but after ANY sequence
of subsequent ids — in particular 1000 distinct ones — a repeat of the
original id still yields `seen = true`: the deque drops its copy, yet the
set consulted by the membership test is never evicted, so the claimed FIFO
behaviour (the repeat returning `seen = false`) never occurs. -/
theorem c8_dedup_no_eviction :
    (dedupCheckAndAdd dedupInit 0).1 = false ∧
    (dedupCheckAndAdd (dedupCheckAndAdd dedupInit 0).2 0).1 = true ∧
    ∀ ids : List Nat,
      (dedupCheckAndAdd (dedupRun (dedupCheckAndAdd dedupInit 0).2 ids) 0).1 = true := by
  refine ⟨rfl, rfl, ?_⟩
  intro ids
  have h0 : (0 : Nat) ∈ (dedupCheckAndAdd dedupInit 0).2.processedIds := by
    simp [dedupCheckAndAdd, dedupInit]
  have hmem := dedup_run_mono ids ((dedupCheckAndAdd dedupInit 0).2) 0 h0
  generalize hst : dedupRun (dedupCheckAndAdd dedupInit 0).2 ids = st at hmem ⊢
  simp [dedupCheckAndAdd, hmem]
